import Mathlib

/-!
Shallow embedding of the site-graph context-mapping engine of the
`daytona-hackday` repository (the `context_mapping` module family:
`context-generator.js`, `generate-context.js`, `generate-visual.js`),
together with theorems settling the frozen claims about its
natural-language specification.

Modelling conventions for the JavaScript source:
* machine strings are Lean `String`s; JS `a + b` / template interpolation
  becomes `++`;
* a JS object field that may be absent is an `Option`; a boolean field that
  is only ever used for truthiness (`requiresAuth`, `userFlow.entryPoint`)
  is a `Bool` with absent ≡ `false`; an array field only ever tested via
  `arr && arr.length > 0` is a `List` with absent ≡ `[]`; an array field
  tested for bare truthiness (where `[]` is truthy in JS) stays an `Option`;
* interpolating a possibly-absent string field renders `"undefined"` when
  the field is absent, as JS does;
* code that would throw a `TypeError` (property access on `undefined`)
  is embedded in `Except JsError`.
-/

/-- Error raised by the embedded JS code: either the source document could
not be read/parsed (constructor), or a property access on `undefined`
threw a `TypeError`. -/
inductive JsError where
  | parseError : JsError
  | typeError : JsError
deriving Repr, DecidableEq

/-- Credential pair from `authentication.defaultCredentials`. -/
structure Credentials where
  username : String
  password : String
deriving Repr, DecidableEq

/-- The `authentication` block of the graph document. -/
structure Authentication where
  required : Bool
  publicPages : List String
  protectedPages : List String
  defaultCredentials : Option Credentials
deriving Repr, DecidableEq

/-- The `metadata` block of the graph document. -/
structure Metadata where
  name : String
  baseUrl : String
  version : String
deriving Repr, DecidableEq

/-- One entry of `commonPatterns`. -/
structure Pattern where
  name : String
  steps : List String
deriving Repr, DecidableEq

/-- One entry of a page's `products` list. -/
structure Product where
  name : String
  price : String
  category : String
deriving Repr, DecidableEq

/-- One entry of a node's `elements` list. -/
structure Element where
  type_ : String
  description : String
  selector : Option String
  placeholder : Option String
  text : Option String
deriving Repr, DecidableEq

/-- A node's optional `userFlow` object. -/
structure UserFlow where
  entryPoint : Bool
  nextSteps : Option (List String)
  actions : Option (List String)
deriving Repr, DecidableEq

/-- A graph node (`type` is the discriminant string `"page"` or
`"component"`, kept as a string exactly as the source stores it). -/
structure Node where
  id : String
  type_ : String
  name : String
  description : String
  route : Option String
  requiresAuth : Bool
  elements : List Element
  products : List Product
  userFlow : Option UserFlow
  appearsOn : Option (List String)
  position : Option String
deriving Repr, DecidableEq

/-- A graph edge (`from` and `to` are Lean keywords, hence the trailing
underscores). -/
structure Edge where
  from_ : String
  to_ : String
  type_ : String
  trigger : String
  description : String
deriving Repr, DecidableEq

/-- The parsed `website-graph.json` document. -/
structure Graph where
  metadata : Metadata
  nodes : List Node
  edges : List Edge
  authentication : Option Authentication
  commonPatterns : Option (List Pattern)
deriving Repr, DecidableEq

/-- JS interpolation of a possibly-absent string field: `undefined`
renders as the string "undefined". -/
def jsStr (o : Option String) : String := o.getD "undefined"

/-- JS truthiness of a possibly-absent string field: absent and the empty
string are falsy. -/
def truthyStr (o : Option String) : Bool :=
  match o with
  | none => false
  | some s => s != ""

/-- JS `String.prototype.toLowerCase`, modelled as ASCII lowering. -/
def toLowerCase (s : String) : String := String.mk (s.data.map Char.toLower)

/-- JS `String.prototype.toUpperCase`, modelled as ASCII raising. -/
def toUpperCase (s : String) : String := String.mk (s.data.map Char.toUpper)

/-- Split a character list at every character satisfying `isSep`,
keeping empty fragments — the semantics of JS `String.prototype.split`
with a one-character separator (`"".split(s)` gives `[""]`,
`"a  b".split(' ')` gives `["a", "", "b"]`). -/
def splitKeepEmpty (isSep : Char → Bool) : List Char → List (List Char)
  | [] => [[]]
  | c :: rest =>
    match splitKeepEmpty isSep rest with
    | [] => [[]]
    | cur :: done =>
      if isSep c then [] :: cur :: done else (c :: cur) :: done

/-- Boolean substring test on character lists: `needle` occurs
contiguously inside `haystack`. -/
def infixOfB (needle : List Char) : List Char → Bool
  | [] => needle.isEmpty
  | h :: t => needle.isPrefixOf (h :: t) || infixOfB needle t

/-- JS `haystack.includes(needle)`: substring containment. -/
def jsIncludes (haystack needle : String) : Bool :=
  infixOfB needle.data haystack.data

/-- Concatenation of a list of strings (the result of JS
`arr.map(...).join('')` / repeated `+=` in a loop). -/
def joinStr : List String → String
  | [] => ""
  | h :: t => h ++ joinStr t

/-- JS `'c'.repeat(n)` used for the `=`/`-` separator rules. -/
def repeatStr (n : Nat) (s : String) : String :=
  joinStr (List.replicate n s)

/-- JS truthiness of `node.userFlow && node.userFlow.entryPoint`
(source: generate-context.js line 81 and generate-visual.js line 112). -/
def entryFlag (n : Node) : Bool :=
  match n.userFlow with
  | some uf => uf.entryPoint
  | none => false

/-- Nodes with `type === 'page'`, in declaration order. -/
def pagesOf (g : Graph) : List Node :=
  g.nodes.filter (fun n => n.type_ == "page")

/-- Nodes with `type === 'component'`, in declaration order. -/
def componentsOf (g : Graph) : List Node :=
  g.nodes.filter (fun n => n.type_ == "component")

/-- JS `graph.nodes.find(n => n.id === nodeId)`. -/
def findNode (g : Graph) (nodeId : String) : Option Node :=
  g.nodes.find? (fun n => n.id == nodeId)

/-- Source: context-generator.js constructor (lines 15-18). The
constructor only does `JSON.parse(fs.readFileSync(path))` and stores the
result; no structural validation of any kind happens (the module README
lists "Graph validation and linting" under Future Enhancements). The
source document is modelled as `Option Graph`: `none` stands for a file
that is missing or not syntactically valid JSON, `some g` for a
successfully parsed document. -/
def load (source : Option Graph) : Except JsError Graph :=
  match source with
  | none => .error .parseError
  | some g => .ok g

/-- Source: context-generator.js lines 159-164. The page text matched
against the task keywords: `` `${node.name} ${node.description}
${node.route}`.toLowerCase() ``. -/
def pageText (n : Node) : String :=
  toLowerCase (n.name ++ " " ++ n.description ++ " " ++ jsStr n.route)

/-- Source: context-generator.js lines 159-163. The keyword list:
`taskDescription.toLowerCase().split(' ')` — a split on single spaces
that keeps empty fragments (so `""` splits to `[""]`, and `"a  b"` to
`["a", "", "b"]`), exactly as JS `split(' ')` does. -/
def taskKeywords (taskDescription : String) : List String :=
  (splitKeepEmpty (fun c => c == ' ')
    (toLowerCase taskDescription).data).map String.mk

/-- Source: context-generator.js lines 160-164. The relevance filter of
`generateTaskContext`: keep `type === 'page'` nodes whose `pageText`
contains some keyword as a substring, in declaration order. -/
def relevantPages (g : Graph) (taskDescription : String) : List Node :=
  g.nodes.filter (fun n =>
    n.type_ == "page" &&
      (taskKeywords taskDescription).any (fun kw => jsIncludes (pageText n) kw))

/-- Modelled from the spec: the relevance rule exactly as the claim C7
words it — whitespace-tokenize the lower-cased task text (a tokenizer
yields maximal nonempty runs, so there is no empty token), and include a
Page when its lower-cased page text contains at least one token as a
substring. Used only to compare against `relevantPages` above. -/
def specWhitespaceTokens (taskDescription : String) : List String :=
  ((splitKeepEmpty Char.isWhitespace
    (toLowerCase taskDescription).data).map String.mk).filter
    (fun t => t != "")

/-- Modelled from the spec: the claim-C7 version of the relevance set,
built from `specWhitespaceTokens`. -/
def specRelevantPages (g : Graph) (taskDescription : String) : List Node :=
  g.nodes.filter (fun n =>
    n.type_ == "page" &&
      (specWhitespaceTokens taskDescription).any
        (fun kw => jsIncludes (pageText n) kw))

/-- Source: context-generator.js lines 173-178. The optional
`userFlow.actions` block of one relevant page (`page.userFlow &&
page.userFlow.actions` — an empty actions array is still truthy in JS,
so the header prints even with no bullets). -/
def taskActionsBlock (n : Node) : String :=
  match n.userFlow with
  | none => ""
  | some uf =>
    match uf.actions with
    | none => ""
    | some acts =>
      "- **Actions Available**:\n" ++
        joinStr (acts.map (fun action => "  - " ++ action ++ "\n"))

/-- Source: context-generator.js lines 180-189. The interactive-elements
block of one relevant page (`page.elements && page.elements.length > 0`;
a selector prints only when truthy). -/
def taskElementsBlock (n : Node) : String :=
  if n.elements.isEmpty then ""
  else
    "- **Interactive Elements**:\n" ++
      joinStr (n.elements.map (fun element =>
        "  - " ++ element.description ++
          (if truthyStr element.selector then
            " (`" ++ jsStr element.selector ++ "`)"
          else "") ++ "\n"))

/-- Source: context-generator.js lines 168-191. One `### page` entry of
the "Relevant Pages" section. -/
def taskPageEntry (n : Node) : String :=
  "### " ++ n.name ++ "\n" ++
    "- Route: " ++ jsStr n.route ++ "\n" ++
    "- " ++ n.description ++ "\n" ++
    taskActionsBlock n ++ taskElementsBlock n ++ "\n"

/-- Source: context-generator.js lines 155-192. Everything
`generateTaskContext` accumulates before the authentication check: the
task header plus (when at least one page matched) the "Relevant Pages"
section. -/
def taskContextBody (g : Graph) (taskDescription : String) : String :=
  "# Task Context\n\n" ++
    "**Task**: " ++ taskDescription ++ "\n\n" ++
    (if (relevantPages g taskDescription).isEmpty then ""
    else
      "## Relevant Pages\n\n" ++
        joinStr ((relevantPages g taskDescription).map taskPageEntry))

/-- Source: context-generator.js lines 196-202. The authentication
section appended when some relevant page has a truthy `requiresAuth`. -/
def taskAuthSection (c : Credentials) (baseUrl : String) : String :=
  "## Authentication Required\n\n" ++
    "This task requires authentication. Use the following credentials:\n" ++
    "- Username: " ++ c.username ++ "\n" ++
    "- Password: " ++ c.password ++ "\n" ++
    "- Login page: " ++ baseUrl ++ "/login\n\n"

/-- Source: context-generator.js lines 154-205, `generateTaskContext`.
When authentication is needed the code dereferences
`this.graph.authentication.defaultCredentials.username`; if the graph has
no `authentication` block or no `defaultCredentials`, that property chain
throws a `TypeError` in JS, embedded here as `.error .typeError`. -/
def generateTaskContext (g : Graph) (taskDescription : String) :
    Except JsError String :=
  if (relevantPages g taskDescription).any (fun p => p.requiresAuth) then
    match g.authentication with
    | none => .error .typeError
    | some auth =>
      match auth.defaultCredentials with
      | none => .error .typeError
      | some c =>
        .ok (taskContextBody g taskDescription ++
          taskAuthSection c g.metadata.baseUrl)
  else
    .ok (taskContextBody g taskDescription)

/-- Fixture helper: a node with every optional field absent, used as the
base record for the concrete test graphs below. -/
def blankNode : Node :=
  { id := "", type_ := "page", name := "", description := "", route := none,
    requiresAuth := false, elements := [], products := [], userFlow := none,
    appearsOn := none, position := none }

/-- Fixture metadata shared by the concrete test graphs. -/
def m0 : Metadata :=
  { name := "Style Scout AI", baseUrl := "http://localhost:8080",
    version := "1.0.0" }

/-- String-append associativity, via the underlying character lists. -/
theorem strAppendAssoc (a b c : String) : a ++ b ++ c = a ++ (b ++ c) := by
  cases a
  cases b
  cases c
  show String.mk _ = String.mk _
  rw [List.append_assoc]

/-- Appending two strings concatenates their character lists. -/
theorem strDataAppend (a b : String) : (a ++ b).data = a.data ++ b.data := by
  cases a
  cases b
  rfl

/-- The configured default credentials of a graph, when both the
`authentication` block and its `defaultCredentials` exist. -/
def credsOf (g : Graph) : Option Credentials :=
  g.authentication.bind (fun a => a.defaultCredentials)

/-- Fixture for claim C1: a structurally invalid graph — the node id
`home` is duplicated, the only edge points to the nonexistent id
`missing`, and the authentication public list names the nonexistent id
`ghost`. -/
def invalidGraph : Graph :=
  { metadata := m0,
    nodes :=
      [{ blankNode with id := "home", name := "Home", route := some "/home" },
       { blankNode with id := "home", name := "Login", route := some "/login" }],
    edges :=
      [{ from_ := "home", to_ := "missing", type_ := "navigation",
         trigger := "click", description := "go" }],
    authentication :=
      some { required := true, publicPages := ["ghost"], protectedPages := [],
             defaultCredentials := none },
    commonPatterns := none }

/-- Claim C1 counterexample: `load` accepts a source whose node id `home`
is duplicated, whose edge dangles on `missing`, and whose authentication
list dangles on `ghost` — it returns the graph unchanged instead of
failing with a validation error, refuting the claim at this input. -/
theorem load_accepts_invalid_graph :
    load (some invalidGraph) = .ok invalidGraph ∧
    invalidGraph.nodes.map Node.id = ["home", "home"] ∧
    invalidGraph.edges.map Edge.to_ = ["missing"] ∧
    (invalidGraph.nodes.map Node.id).contains "missing" = false ∧
    (invalidGraph.authentication.map Authentication.publicPages) =
      some ["ghost"] ∧
    (invalidGraph.nodes.map Node.id).contains "ghost" = false :=
  ⟨rfl, by decide⟩

/-- Claim C1 amended: `load` is parse-only. Every syntactically parsed
source is returned unchanged as the graph — duplicate ids and dangling
references included — and loading fails only when the source cannot be
read or parsed. -/
theorem load_is_parse_only :
    (∀ g : Graph, load (some g) = .ok g) ∧
      load none = .error .parseError :=
  ⟨fun _ => rfl, rfl⟩

/-- Fixture for claim C2: a graph with a single page. -/
def c2Page : Node :=
  { blankNode with
    id := "home", name := "Home"
    description := "landing page", route := some "/home" }

/-- Fixture graph for claim C2. -/
def c2Graph : Graph :=
  { metadata := m0, nodes := [c2Page], edges := [], authentication := none,
    commonPatterns := none }

/-- Claim C2 counterexample: on the empty task string the matcher returns
the page `home`, not the empty set — `"".split(' ')` is `[""]` in JS and
the empty keyword is a substring of every page text. -/
theorem relevantPages_empty_task_counterexample :
    relevantPages c2Graph "" = [c2Page] ∧ relevantPages c2Graph "" ≠ [] := by
  decide

/-- The empty keyword is a substring of everything. -/
theorem infixOfB_nil (l : List Char) : infixOfB [] l = true := by
  cases l <;> simp [infixOfB, List.isEmpty, List.isPrefixOf]

/-- Claim C2 amended: on the empty task string the matcher returns the
set of ALL `page` nodes of the graph (every page matches the empty
keyword); the matcher itself signals no error. -/
theorem relevantPages_empty_task (g : Graph) :
    relevantPages g "" = pagesOf g := by
  unfold relevantPages pagesOf
  congr 1
  funext n
  have hkw : taskKeywords "" = [""] := rfl
  rw [hkw]
  have hinc : jsIncludes (pageText n) "" = true := infixOfB_nil _
  simp [hinc]

/-- Fixture for claim C7: a page whose text contains no `q`. -/
def c7Page : Node :=
  { blankNode with
    id := "zzz", name := "Zzz"
    description := "plain", route := some "/z" }

/-- Fixture graph for claim C7. -/
def c7Graph : Graph :=
  { metadata := m0, nodes := [c7Page], edges := [], authentication := none,
    commonPatterns := none }

/-- Claim C7 counterexample: for the task text `" q"` (leading space) the
code includes the page `Zzz` — the JS keyword list is `["", "q"]` and the
empty keyword matches — even though no whitespace token of the task text
(`["q"]`) is a substring of the page text, refuting the claimed
"if and only if" at this input. -/
theorem relevantPages_not_token_iff :
    relevantPages c7Graph " q" = [c7Page] ∧
    (specWhitespaceTokens " q").any
      (fun kw => jsIncludes (pageText c7Page) kw) = false := by
  decide

/-- Fixture for claim C7, scenario D: the Login page. -/
def scenarioDLogin : Node :=
  { blankNode with
    id := "login", name := "Login"
    description := "sign in page", route := some "/login" }

/-- Fixture graph for claim C7, scenario D. -/
def scenarioDGraph : Graph :=
  { metadata := m0, nodes := [scenarioDLogin], edges := [],
    authentication := none, commonPatterns := none }

/-- Claim C7 amended: a node is included in the relevance set iff it is a
`page` node of the graph whose lower-cased space-joined
`name description route` text contains, as a substring, at least one
fragment of the lower-cased task text split on single spaces (fragments
may be empty — empty fragments match every page). The result preserves
node declaration order (it is a sublist of `graph.nodes`), and the task
text "login and checkout" does match the scenario-D Login page. -/
theorem relevantPages_characterization :
    (∀ (g : Graph) (task : String),
      (relevantPages g task).Sublist g.nodes ∧
      ∀ n : Node, n ∈ relevantPages g task ↔
        n ∈ g.nodes ∧ n.type_ = "page" ∧
          ∃ kw ∈ taskKeywords task, jsIncludes (pageText n) kw = true) ∧
    scenarioDLogin ∈ relevantPages scenarioDGraph "login and checkout" := by
  constructor
  · intro g task
    refine ⟨List.filter_sublist _, ?_⟩
    intro n
    simp only [relevantPages, List.mem_filter, Bool.and_eq_true, beq_iff_eq,
      List.any_eq_true, and_assoc]
  · decide

/-- Claim C3: whenever some matched page has `requiresAuth`, the renderer
appends exactly one authentication section — the task body followed by
`taskAuthSection`, which carries the default credentials and the login
URL `baseUrl ++ "/login"` — when default credentials are configured, and
fails (the JS property chain on the missing credentials throws) when they
are not. -/
theorem generateTaskContext_auth (g : Graph) (task : String)
    (h : (relevantPages g task).any (fun p => p.requiresAuth) = true) :
    (∀ c : Credentials, credsOf g = some c →
      generateTaskContext g task =
        .ok (taskContextBody g task ++
          taskAuthSection c g.metadata.baseUrl) ∧
      ∃ pre post : String,
        taskAuthSection c g.metadata.baseUrl =
          pre ++ (g.metadata.baseUrl ++ "/login") ++ post) ∧
    (credsOf g = none → generateTaskContext g task = .error .typeError) := by
  constructor
  · intro c hc
    constructor
    · unfold generateTaskContext
      rw [if_pos h]
      unfold credsOf at hc
      match hauth : g.authentication with
      | none => rw [hauth] at hc; exact absurd hc (by simp)
      | some auth =>
        rw [hauth] at hc
        replace hc : auth.defaultCredentials = some c := hc
        simp only [hc]
    · refine ⟨"## Authentication Required\n\n" ++
        "This task requires authentication. Use the following credentials:\n" ++
        "- Username: " ++ c.username ++ "\n" ++
        "- Password: " ++ c.password ++ "\n" ++
        "- Login page: ", "\n\n", ?_⟩
      unfold taskAuthSection
      rw [strAppendAssoc _ g.metadata.baseUrl "/login\n\n"]
      rw [show ("/login\n\n" : String) = "/login" ++ "\n\n" from rfl]
      rw [← strAppendAssoc g.metadata.baseUrl "/login" "\n\n"]
      rw [← strAppendAssoc _ (g.metadata.baseUrl ++ "/login") "\n\n"]
  · intro hc
    unfold generateTaskContext
    rw [if_pos h]
    unfold credsOf at hc
    match hauth : g.authentication with
    | none => rfl
    | some auth =>
      rw [hauth] at hc
      replace hc : auth.defaultCredentials = none := hc
      simp only [hc]

/-- Fixture: the default credentials used by the witness graphs. -/
def adminCreds : Credentials := { username := "admin", password := "admin" }

/-- Fixture: a protected Login page used by the claim C3 witness. -/
def c3LoginPage : Node :=
  { blankNode with
    id := "login", name := "Login"
    description := "sign in page", route := some "/login"
    requiresAuth := true }

/-- Fixture graph for claim C3 with default credentials configured. -/
def c3AuthGraph : Graph :=
  { metadata := m0, nodes := [c3LoginPage], edges := []
    authentication :=
      some { required := true, publicPages := [], protectedPages := ["login"],
             defaultCredentials := some adminCreds }
    commonPatterns := none }

/-- Fixture graph for claim C3 with no default credentials configured. -/
def c3NoCredsGraph : Graph :=
  { metadata := m0, nodes := [c3LoginPage], edges := []
    authentication :=
      some { required := true, publicPages := [], protectedPages := ["login"],
             defaultCredentials := none }
    commonPatterns := none }

/-- Claim C3 witness: concrete instantiation of
`generateTaskContext_auth` on the task "login" — with credentials the
output is the body plus the one authentication section, without them the
call fails. -/
theorem generateTaskContext_auth_witness :
    generateTaskContext c3AuthGraph "login" =
      .ok (taskContextBody c3AuthGraph "login" ++
        taskAuthSection adminCreds "http://localhost:8080") ∧
    generateTaskContext c3NoCredsGraph "login" = .error .typeError :=
  ⟨((generateTaskContext_auth c3AuthGraph "login" (by decide)).1
      adminCreds rfl).1,
   (generateTaskContext_auth c3NoCredsGraph "login" (by decide)).2 rfl⟩

/-- Source: generate-context.js lines 81-83 and generate-visual.js lines
112-114. Root selection when no root id is supplied:
`graph.nodes.find(n => n.userFlow && n.userFlow.entryPoint) ||
graph.nodes.find(n => !n.requiresAuth)`. There is no further fallback and
no error: when both `find` calls miss, `entryPoint` is `undefined` and
the callers simply skip (generate-context) or replace (generate-visual)
the tree. -/
def resolveRoot (g : Graph) : Option Node :=
  match g.nodes.find? entryFlag with
  | some n => some n
  | none => g.nodes.find? (fun n => !n.requiresAuth)

/-- Fixture for claim C4: a graph whose only node is a Page with
`requiresAuth = true` and no entry-point flag. -/
def c4OnlyPage : Node :=
  { blankNode with
    id := "admin", name := "Admin"
    description := "admin console", route := some "/admin"
    requiresAuth := true }

/-- Fixture graph for claim C4. -/
def c4Graph : Graph :=
  { metadata := m0, nodes := [c4OnlyPage], edges := [],
    authentication := none, commonPatterns := none }

/-- Claim C4 counterexample: `c4Graph` has a Page node, so the claim says
the root must resolve (to the first Page) and `NoRootFoundError` must not
be raised; the code resolves no root at all — there is no first-Page
fallback and no error path. -/
theorem resolveRoot_no_first_page_fallback :
    resolveRoot c4Graph = none ∧ pagesOf c4Graph ≠ [] := by
  decide

/-- Fixture for claim C4, scenario E: first node protected. -/
def scenarioEFirst : Node :=
  { blankNode with
    id := "dash", name := "Dashboard"
    description := "internal dashboard", route := some "/dash"
    requiresAuth := true }

/-- Fixture for claim C4, scenario E: second node public. -/
def scenarioESecond : Node :=
  { blankNode with
    id := "welcome", name := "Welcome"
    description := "public welcome page", route := some "/welcome"
    requiresAuth := false }

/-- Fixture graph for claim C4, scenario E: no node carries the
entry-point flag; the first node requires auth, the second does not. -/
def scenarioEGraph : Graph :=
  { metadata := m0, nodes := [scenarioEFirst, scenarioESecond], edges := [],
    authentication := none, commonPatterns := none }

/-- Claim C4 amended: the traversal root is the first node (of any kind)
with a truthy `userFlow.entryPoint`, else the first node with a falsy
`requiresAuth`; when neither exists no root is resolved and no error is
raised. Scenario E holds: with no entry flags, first node protected and
second public, the second node is the root. -/
theorem resolveRoot_policy :
    (∀ (g : Graph) (n : Node),
      g.nodes.find? entryFlag = some n → resolveRoot g = some n) ∧
    (∀ g : Graph, g.nodes.find? entryFlag = none →
      resolveRoot g = g.nodes.find? (fun n => !n.requiresAuth)) ∧
    resolveRoot scenarioEGraph = some scenarioESecond := by
  refine ⟨?_, ?_, by decide⟩
  · intro g n h
    simp only [resolveRoot, h]
  · intro g h
    simp only [resolveRoot, h]

/-- Fixture: the Home page of the scenario-A two-page graph (public entry
point). -/
def homePage : Node :=
  { blankNode with
    id := "home", name := "Home"
    description := "main landing page", route := some "/home"
    userFlow := some { entryPoint := true, nextSteps := none, actions := none } }

/-- Fixture: the protected Login page of the scenario-A two-page graph. -/
def loginPage : Node :=
  { blankNode with
    id := "login", name := "Login"
    description := "login page", route := some "/login"
    requiresAuth := true }

/-- Fixture graph for scenario A: `home` —Navigation(click_login)→
`login`. -/
def scenarioAGraph : Graph :=
  { metadata := m0, nodes := [homePage, loginPage]
    edges :=
      [{ from_ := "home", to_ := "login", type_ := "navigation",
         trigger := "click_login", description := "Go to login" }]
    authentication := none, commonPatterns := none }

/-- Claim C4 witness: `resolveRoot_policy` instantiated on concrete
graphs — scenario A resolves to the entry-point node `home`, and
scenario E (no entry flags) resolves to the first node with falsy
`requiresAuth`. -/
theorem resolveRoot_policy_witness :
    resolveRoot scenarioAGraph = some homePage ∧
    resolveRoot scenarioEGraph = some scenarioESecond :=
  ⟨resolveRoot_policy.1 scenarioAGraph homePage (by decide),
   (resolveRoot_policy.2.1 scenarioEGraph (by decide)).trans (by decide)⟩

/-- One recorded visit of the traversal: the node id, the recursion depth
at which it was first reached, and the node from whose edge it was
reached (the source records the depth through indentation and the parent
through the recursion structure). -/
structure TreeEntry where
  id : String
  depth : Nat
  parent : Option String
deriving Repr, DecidableEq

/-- Source: generate-context.js lines 138-143 and generate-visual.js
lines 152-154. The navigation children of a node, in edge declaration
order: `graph.edges.filter(e => e.from === nodeId && e.type ===
'navigation').map(e => e.to)`. -/
def navChildren (g : Graph) (nodeId : String) : List String :=
  (g.edges.filter (fun e => e.from_ == nodeId && e.type_ == "navigation")).map
    Edge.to_

/-- The ids of the graph's nodes, in declaration order. -/
def nodeIds (g : Graph) : List String := g.nodes.map Node.id

/-- Number of node ids not yet in the visited set; the termination
measure of the traversal. -/
def unvisitedCount (g : Graph) (visited : List String) : Nat :=
  ((nodeIds g).filter (fun i => !visited.contains i)).length

/-- Counting with a pointwise-smaller predicate that misses a member the
larger one hits is strictly smaller. -/
theorem countP_lt_of_mem {α : Type} (l : List α) (p q : α → Bool)
    (mono : ∀ x, p x = true → q x = true) (a : α) (ha : a ∈ l)
    (hpa : p a = false) (hqa : q a = true) : l.countP p < l.countP q := by
  induction l with
  | nil => cases ha
  | cons h t ih =>
    rw [List.countP_cons, List.countP_cons]
    have hmono : t.countP p ≤ t.countP q :=
      List.countP_mono_left (fun x _ hx => mono x hx)
    rcases List.mem_cons.mp ha with rfl | hat
    · rw [hpa, hqa]
      simp only [Bool.false_eq_true, if_false, if_true]
      omega
    · have hstrict := ih hat
      have hif : (if p h = true then 1 else 0) ≤ if q h = true then 1 else 0 := by
        by_cases hp : p h = true
        · simp [hp, mono h hp]
        · simp [hp]
      omega

/-- Adding an id that is not a node id leaves the unvisited count
unchanged. -/
theorem unvisitedCount_cons_of_not_node (g : Graph) (visited : List String)
    (nid : String) (h : findNode g nid = none) :
    unvisitedCount g (nid :: visited) = unvisitedCount g visited := by
  unfold unvisitedCount
  congr 1
  apply List.filter_congr
  intro i hi
  have hne : i ≠ nid := by
    rintro rfl
    obtain ⟨n, hn, rfl⟩ := List.mem_map.mp hi
    have := List.find?_eq_none.mp h n hn
    simp at this
  rw [List.contains_cons]
  have : (i == nid) = false := beq_eq_false_iff_ne.mpr hne
  rw [this]
  simp

/-- Adding a node id that was not yet visited strictly decreases the
unvisited count. -/
theorem unvisitedCount_cons_of_node (g : Graph) (visited : List String)
    (nid : String) (n : Node) (hfind : findNode g nid = some n)
    (hvis : visited.contains nid = false) :
    unvisitedCount g (nid :: visited) < unvisitedCount g visited := by
  unfold unvisitedCount
  rw [← List.countP_eq_length_filter, ← List.countP_eq_length_filter]
  have hmem : nid ∈ nodeIds g := by
    have hn := List.mem_of_find?_eq_some hfind
    have hid : n.id = nid := by
      have := List.find?_some hfind
      simpa using this
    exact List.mem_map.mpr ⟨n, hn, hid⟩
  apply countP_lt_of_mem _ _ _ ?_ nid hmem ?_ ?_
  · intro x hx
    rw [List.contains_cons] at hx
    simp only [Bool.not_eq_true', Bool.or_eq_false_iff] at hx ⊢
    exact hx.2
  · rw [List.contains_cons]
    simp
  · show (!visited.contains nid) = true
    rw [hvis]
    rfl

/-- Source: generate-context.js lines 122-150 (`buildTreeText`) and
generate-visual.js lines 134-159 (`buildTreeRecursive`) — both share the
identical traversal: skip a node already in `visited`; add the node to
`visited` (before checking whether it exists or is a page); stop unless
the node exists and has `type === 'page'`; record the node (with its
depth, and its parent — the node whose navigation edge reached it); then
recurse into its navigation children in edge declaration order at
depth + 1, threading the same `visited` set. The explicit work stack here
produces exactly the recursive depth-first visit order. (The lines the
source formats during this walk are appended to a local string parameter
and discarded; the traversal itself is as embedded here.) -/
def buildTreeVisit (g : Graph)
    (stack : List (String × Nat × Option String)) (visited : List String) :
    List TreeEntry :=
  match stack with
  | [] => []
  | (nid, d, par) :: rest =>
    if hvis : visited.contains nid then
      buildTreeVisit g rest visited
    else
      match hfind : findNode g nid with
      | none => buildTreeVisit g rest (nid :: visited)
      | some n =>
        if n.type_ == "page" then
          ⟨nid, d, par⟩ ::
            buildTreeVisit g
              ((navChildren g nid).map (fun c => (c, d + 1, some nid)) ++ rest)
              (nid :: visited)
        else
          buildTreeVisit g rest (nid :: visited)
termination_by (unvisitedCount g visited, stack.length)
decreasing_by
  · apply Prod.Lex.right
    simp
  · have heq := unvisitedCount_cons_of_not_node g visited nid hfind
    rw [← heq]
    apply Prod.Lex.right
    simp
  · apply Prod.Lex.left
    exact unvisitedCount_cons_of_node g visited nid n hfind
      (Bool.not_eq_true _ ▸ eq_false_of_ne_true hvis)
  · apply Prod.Lex.left
    exact unvisitedCount_cons_of_node g visited nid n hfind
      (Bool.not_eq_true _ ▸ eq_false_of_ne_true hvis)

/-- Source: the traversal entry points — generate-context.js line 88
(`this.buildTreeText(tree, entryPoint.id, graph, new Set(), 0, '')`) and
generate-visual.js line 117: start at the root id with an empty visited
set and depth 0, no parent. -/
def buildTree (g : Graph) (rootId : String) : List TreeEntry :=
  buildTreeVisit g [(rootId, 0, none)] []

/-- Step equation: the empty stack yields the empty visit list. -/
theorem buildTreeVisit_nil (g : Graph) (visited : List String) :
    buildTreeVisit g [] visited = [] := by
  rw [buildTreeVisit.eq_def]

/-- Step equation: an already-visited node is skipped. -/
theorem buildTreeVisit_skip (g : Graph) (nid : String) (d : Nat)
    (par : Option String) (rest : List (String × Nat × Option String))
    (visited : List String) (hvis : visited.contains nid = true) :
    buildTreeVisit g ((nid, d, par) :: rest) visited =
      buildTreeVisit g rest visited := by
  rw [buildTreeVisit.eq_def]
  exact dif_pos hvis

/-- Step equation: a dangling id is marked visited and skipped. -/
theorem buildTreeVisit_missing (g : Graph) (nid : String) (d : Nat)
    (par : Option String) (rest : List (String × Nat × Option String))
    (visited : List String) (hvis : visited.contains nid = false)
    (hfind : findNode g nid = none) :
    buildTreeVisit g ((nid, d, par) :: rest) visited =
      buildTreeVisit g rest (nid :: visited) := by
  rw [buildTreeVisit.eq_def]
  refine (dif_neg (by simpa using hvis)).trans ?_
  split
  · rfl
  · rename_i n heq
    rw [hfind] at heq
    cases heq

/-- Step equation: a fresh page node is recorded and its navigation
children are pushed in front of the remaining work. -/
theorem buildTreeVisit_page (g : Graph) (nid : String) (d : Nat)
    (par : Option String) (rest : List (String × Nat × Option String))
    (visited : List String) (n : Node) (hvis : visited.contains nid = false)
    (hfind : findNode g nid = some n) (hpage : (n.type_ == "page") = true) :
    buildTreeVisit g ((nid, d, par) :: rest) visited =
      ⟨nid, d, par⟩ ::
        buildTreeVisit g
          ((navChildren g nid).map (fun c => (c, d + 1, some nid)) ++ rest)
          (nid :: visited) := by
  rw [buildTreeVisit.eq_def]
  refine (dif_neg (by simpa using hvis)).trans ?_
  split
  · rename_i heq
    rw [hfind] at heq
    cases heq
  · rename_i n2 heq
    rw [hfind] at heq
    cases heq
    simp [hpage]

/-- Step equation: a fresh non-page node is marked visited and skipped. -/
theorem buildTreeVisit_nonpage (g : Graph) (nid : String) (d : Nat)
    (par : Option String) (rest : List (String × Nat × Option String))
    (visited : List String) (n : Node) (hvis : visited.contains nid = false)
    (hfind : findNode g nid = some n) (hpage : (n.type_ == "page") = false) :
    buildTreeVisit g ((nid, d, par) :: rest) visited =
      buildTreeVisit g rest (nid :: visited) := by
  rw [buildTreeVisit.eq_def]
  refine (dif_neg (by simpa using hvis)).trans ?_
  split
  · rename_i heq
    rw [hfind] at heq
  · rename_i n2 heq
    rw [hfind] at heq
    cases heq
    simp [hpage]

/-- Every recorded entry was not yet in the visited set the traversal
started from — the node was genuinely fresh when it was recorded. -/
theorem buildTreeVisit_id_fresh (g : Graph)
    (stack : List (String × Nat × Option String)) (visited : List String) :
    ∀ e ∈ buildTreeVisit g stack visited, visited.contains e.id = false := by
  induction stack, visited using buildTreeVisit.induct g with
  | case1 visited =>
    rw [buildTreeVisit_nil]
    intro e he
    cases he
  | case2 visited nid d par rest hvis ih =>
    rw [buildTreeVisit_skip g nid d par rest visited hvis]
    exact ih
  | case3 visited nid d par rest hvis hfind ih =>
    rw [buildTreeVisit_missing g nid d par rest visited
      (eq_false_of_ne_true hvis) hfind]
    intro e he
    have hx := ih e he
    rw [List.contains_cons] at hx
    exact (Bool.or_eq_false_iff.mp hx).2
  | case4 visited nid d par rest hvis n hfind hpage ih =>
    rw [buildTreeVisit_page g nid d par rest visited n
      (eq_false_of_ne_true hvis) hfind hpage]
    intro e he
    rcases List.mem_cons.mp he with rfl | he2
    · exact eq_false_of_ne_true hvis
    · have hx := ih e he2
      rw [List.contains_cons] at hx
      exact (Bool.or_eq_false_iff.mp hx).2
  | case5 visited nid d par rest hvis n hfind hpage ih =>
    rw [buildTreeVisit_nonpage g nid d par rest visited n
      (eq_false_of_ne_true hvis) hfind (eq_false_of_ne_true hpage)]
    intro e he
    have hx := ih e he
    rw [List.contains_cons] at hx
    exact (Bool.or_eq_false_iff.mp hx).2

/-- The ids recorded by one traversal are pairwise distinct: the
`visited` set guarantees each node is visited at most once. -/
theorem buildTreeVisit_ids_nodup (g : Graph)
    (stack : List (String × Nat × Option String)) (visited : List String) :
    ((buildTreeVisit g stack visited).map TreeEntry.id).Nodup := by
  induction stack, visited using buildTreeVisit.induct g with
  | case1 visited =>
    rw [buildTreeVisit_nil]
    exact List.nodup_nil
  | case2 visited nid d par rest hvis ih =>
    rw [buildTreeVisit_skip g nid d par rest visited hvis]
    exact ih
  | case3 visited nid d par rest hvis hfind ih =>
    rw [buildTreeVisit_missing g nid d par rest visited
      (eq_false_of_ne_true hvis) hfind]
    exact ih
  | case4 visited nid d par rest hvis n hfind hpage ih =>
    rw [buildTreeVisit_page g nid d par rest visited n
      (eq_false_of_ne_true hvis) hfind hpage]
    rw [List.map_cons]
    refine List.nodup_cons.mpr ⟨?_, ih⟩
    intro hmem
    obtain ⟨e, he, heid⟩ := List.mem_map.mp hmem
    have hfresh := buildTreeVisit_id_fresh g _ _ e he
    rw [heid, List.contains_cons] at hfresh
    simp at hfresh
  | case5 visited nid d par rest hvis n hfind hpage ih =>
    rw [buildTreeVisit_nonpage g nid d par rest visited n
      (eq_false_of_ne_true hvis) hfind (eq_false_of_ne_true hpage)]
    exact ih

/-- Fixture for claim C5: the scenario-A graph plus a back edge
`login → home`, making the navigation graph cyclic. -/
def cyclicGraph : Graph :=
  { metadata := m0, nodes := [homePage, loginPage]
    edges :=
      [{ from_ := "home", to_ := "login", type_ := "navigation",
         trigger := "click_login", description := "Go to login" },
       { from_ := "login", to_ := "home", type_ := "navigation",
         trigger := "click_back", description := "Back to home" }]
    authentication := none, commonPatterns := none }

/-- Claim C5: the traversal is a total function (it is defined by
well-founded recursion on the number of unvisited node ids, so it
terminates on every graph, cyclic ones included); every node id appears
at most once among the recorded entries; and on the concrete cyclic
graph `home ⇄ login` the first path wins — `home` is recorded at depth 0
with no parent, `login` at depth 1 with parent `home`, and the later back
edge into the already-visited `home` is dropped without any error
value. -/
theorem buildTree_visits_once :
    (∀ (g : Graph) (rootId : String),
      ((buildTree g rootId).map TreeEntry.id).Nodup) ∧
    buildTree cyclicGraph "home" =
      [⟨"home", 0, none⟩, ⟨"login", 1, some "home"⟩] := by
  constructor
  · intro g rootId
    exact buildTreeVisit_ids_nodup g _ _
  · simp [buildTree, buildTreeVisit.eq_def, findNode, navChildren,
      cyclicGraph, homePage, loginPage, blankNode, List.find?, List.filter]

/-- JS `arr.join(sep)`. -/
def joinSep (sep : String) : List String → String
  | [] => ""
  | h :: t => t.foldl (fun acc x => acc ++ sep ++ x) h

/-- Source: generate-context.js lines 94-105. The "All Pages" flat
listing of `generateTreeStructure`. -/
def allPagesBlock (g : Graph) : String :=
  joinStr ((pagesOf g).map (fun page =>
    "\n📄 " ++ page.name ++ "\n" ++
    "   Route: " ++ jsStr page.route ++ "\n" ++
    "   Auth Required: " ++ (if page.requiresAuth then "Yes" else "No") ++
      "\n" ++
    (if page.elements.isEmpty then ""
      else "   Elements: " ++ toString page.elements.length ++ "\n") ++
    (if page.products.isEmpty then ""
      else "   Products: " ++ toString page.products.length ++ "\n")))

/-- Source: generate-context.js lines 107-117. The "Global Components"
listing of `generateTreeStructure`. -/
def componentsBlock (g : Graph) : String :=
  joinStr ((componentsOf g).map (fun component =>
    "\n🧩 " ++ component.name ++ "\n" ++
    "   Description: " ++ component.description ++ "\n" ++
    (match component.appearsOn with
      | none => ""
      | some ids => "   Appears On: " ++ joinSep ", " ids ++ "\n")))

/-- Source: generate-context.js lines 72-120, `generateTreeStructure`.
When a root resolves, the code prints the "Website Structure Tree:"
header and then calls
`this.buildTreeText(tree, entryPoint.id, graph, new Set(), 0, '')`
(line 88). `buildTreeText` appends every tree line to its local `tree`
string parameter — but JavaScript passes strings by value and the
method's return value (`undefined`) is ignored, so nothing the walk
formats ever reaches this function's `tree` accumulator: the header is
followed directly by the flat "All Pages" listing. -/
def generateTreeStructure (g : Graph) : String :=
  repeatStr 80 "=" ++ "\n" ++
  "Website Context Tree: " ++ g.metadata.name ++ "\n" ++
  repeatStr 80 "=" ++ "\n\n" ++
  "Base URL: " ++ g.metadata.baseUrl ++ "\n" ++
  "Version: " ++ g.metadata.version ++ "\n\n" ++
  (match resolveRoot g with
    | some _ => "Website Structure Tree:\n" ++ repeatStr 80 "-" ++ "\n\n"
    | none => "") ++
  "\n\nAll Pages:\n" ++ repeatStr 80 "-" ++ "\n" ++ allPagesBlock g ++
  "\n\nGlobal Components:\n" ++ repeatStr 80 "-" ++ "\n" ++ componentsBlock g

set_option maxRecDepth 20000

/-- Claim C6 (code bug): on the scenario-A two-page graph the
tree-structure text contains the "Website Structure Tree:" header but no
tree line at all — neither `Home (/home)` at depth 0 nor `Login (/login)`
at depth 1, nor any `├──`/`└──` connector — because `buildTreeText`
accumulates its lines into a local string parameter that is discarded.
The "All Pages" section still lists both pages flat. -/
theorem generateTreeStructure_has_no_tree_lines :
    jsIncludes (generateTreeStructure scenarioAGraph)
      "Website Structure Tree:" = true ∧
    jsIncludes (generateTreeStructure scenarioAGraph) "Home (/home)" = false ∧
    jsIncludes (generateTreeStructure scenarioAGraph) "Login (/login)" = false ∧
    jsIncludes (generateTreeStructure scenarioAGraph) "├──" = false ∧
    jsIncludes (generateTreeStructure scenarioAGraph) "└──" = false ∧
    jsIncludes (generateTreeStructure scenarioAGraph) "📄 Home" = true ∧
    jsIncludes (generateTreeStructure scenarioAGraph) "📄 Login" = true := by
  decide

/-- The empty string is a left identity for string append. -/
theorem strNilAppend (s : String) : "" ++ s = s := by
  cases s
  show String.mk ([] ++ _) = _
  rw [List.nil_append]

/-- `joinStr` distributes over list append. -/
theorem joinStr_append (l1 l2 : List String) :
    joinStr (l1 ++ l2) = joinStr l1 ++ joinStr l2 := by
  induction l1 with
  | nil => rw [List.nil_append]; exact (strNilAppend _).symm
  | cons h t ih =>
    rw [List.cons_append]
    show h ++ joinStr (t ++ l2) = (h ++ joinStr t) ++ joinStr l2
    rw [ih, strAppendAssoc]

/-- Joining entries that render `""` unless they pass a guard equals
joining the guarded entries only. -/
theorem joinStr_map_skip {α : Type} (l : List α) (p : α → Bool)
    (f : α → String) :
    joinStr (l.map (fun x => if p x then "" else f x)) =
      joinStr ((l.filter (fun x => !p x)).map f) := by
  induction l with
  | nil => rfl
  | cons h t ih =>
    rw [List.map_cons]
    show (if p h then "" else f h) ++ _ = _
    by_cases hp : p h = true
    · rw [if_pos hp, List.filter_cons_of_neg (by simp [hp])]
      rw [strNilAppend, ih]
    · have hp' : p h = false := eq_false_of_ne_true hp
      rw [if_neg (by simp [hp']), List.filter_cons_of_pos (by simp [hp'])]
      rw [List.map_cons]
      show f h ++ _ = f h ++ _
      rw [ih]

/-- Source: context-generator.js line 217. One route-list line:
`` `- \`${page.route}\` - ${page.name}${page.requiresAuth ? '
(Auth Required)' : ''}\n` ``. -/
def routeLine (page : Node) : String :=
  "- `" ++ jsStr page.route ++ "` - " ++ page.name ++
    (if page.requiresAuth then " (Auth Required)" else "") ++ "\n"

/-- Source: context-generator.js lines 224-229 and 237-242. The
selector bullets of one node's section — only elements with a truthy
selector produce a line. -/
def selectorLines (els : List Element) : String :=
  joinStr (els.map (fun element =>
    if truthyStr element.selector then
      "- " ++ element.description ++ ": `" ++ jsStr element.selector ++ "`\n"
    else ""))

/-- Source: context-generator.js lines 222-230 / 235-243. One "Key
Selectors" section: the `### name` header, the selector bullets, and a
blank line. -/
def sectionFor (n : Node) : String :=
  "### " ++ n.name ++ "\n" ++ selectorLines n.elements ++ "\n"

/-- Source: context-generator.js lines 211-247, `generateQuickReference`:
the route list over all pages, then per page and per component WITH A
NON-EMPTY `elements` LIST (`node.elements && node.elements.length > 0` —
regardless of whether any element has a selector) one section of
selector bullets. -/
def generateQuickReference (g : Graph) : String :=
  "# Quick Reference: " ++ g.metadata.name ++ "\n\n" ++
  "## Routes\n" ++
  joinStr ((pagesOf g).map routeLine) ++
  "\n## Key Selectors\n\n" ++
  joinStr ((pagesOf g).map (fun page =>
    if page.elements.isEmpty then "" else sectionFor page)) ++
  joinStr ((componentsOf g).map (fun component =>
    if component.elements.isEmpty then "" else sectionFor component))

/-- The nodes that receive a "Key Selectors" section: pages then
components, those with a non-empty `elements` list. -/
def sectionNodes (g : Graph) : List Node :=
  (pagesOf g ++ componentsOf g).filter (fun n => !n.elements.isEmpty)

/-- Fixture for claim C8: a page whose single element has no selector. -/
def c8CartPage : Node :=
  { blankNode with
    id := "cart", name := "Cart"
    description := "shopping cart", route := some "/cart"
    elements :=
      [{ type_ := "button", description := "checkout button",
         selector := none, placeholder := none, text := none }] }

/-- Fixture graph for claim C8. -/
def c8Graph : Graph :=
  { metadata := m0, nodes := [c8CartPage], edges := [],
    authentication := none, commonPatterns := none }

/-- Claim C8 counterexample: the page `Cart` has no selector-bearing
element, yet the digest's selector listing still contains a `### Cart`
section (the code keys the section on a non-empty `elements` list, not
on the presence of selectors), refuting the claimed "if and only if". -/
theorem quickReference_section_without_selectors :
    jsIncludes (generateQuickReference c8Graph) "### Cart" = true ∧
    c8CartPage.elements.all (fun e => !truthyStr e.selector) = true := by
  decide

/-- Claim C8 amended: the selector listing contains one section per page
and per component whose `elements` list is non-empty (in declaration
order, pages before components) — whether or not any element carries a
selector; within a section only selector-bearing elements produce
bullets; and the route list has exactly one `routeLine` per Page in
declaration order, with the "(Auth Required)" suffix governed by
`requiresAuth`. -/
theorem quickReference_structure (g : Graph) :
    generateQuickReference g =
      "# Quick Reference: " ++ g.metadata.name ++ "\n\n" ++
      "## Routes\n" ++
      joinStr ((pagesOf g).map routeLine) ++
      "\n## Key Selectors\n\n" ++
      (joinStr ((sectionNodes g).map sectionFor)) := by
  unfold generateQuickReference sectionNodes
  rw [List.filter_append, List.map_append, joinStr_append]
  rw [joinStr_map_skip (pagesOf g) (fun page => page.elements.isEmpty)
    sectionFor]
  rw [joinStr_map_skip (componentsOf g) (fun c => c.elements.isEmpty)
    sectionFor]
  rw [strAppendAssoc]

/-- Sequence a fallible computation over a list, stopping at the first
error — the behaviour of a JS loop or `map` whose body can throw. -/
def exceptMap {α β : Type} (f : α → Except JsError β) :
    List α → Except JsError (List β)
  | [] => .ok []
  | h :: t => do
    let b ← f h
    let rest ← exceptMap f t
    .ok (b :: rest)

/-- Source: context-generator.js lines 39-66. The "Pages Structure"
section of `generateFullContext`. -/
def fullPagesSection (g : Graph) : String :=
  "## Pages Structure\n\n" ++
  joinStr ((pagesOf g).map (fun page =>
    "### " ++ page.name ++ " (" ++ jsStr page.route ++ ")\n" ++
    "- **Description**: " ++ page.description ++ "\n" ++
    "- **Requires Auth**: " ++ (if page.requiresAuth then "Yes" else "No") ++
      "\n" ++
    (if page.elements.isEmpty then ""
      else
        "- **Key Elements**:\n" ++
        joinStr (page.elements.map (fun element =>
          "  - " ++ element.description ++ " (" ++ element.type_ ++ ")\n" ++
          (if truthyStr element.selector then
            "    - Selector: `" ++ jsStr element.selector ++ "`\n"
          else "")))) ++
    (if page.products.isEmpty then ""
      else
        "- **Products Available**: " ++ toString page.products.length ++
          " items\n" ++
        "  - Categories: " ++
          joinSep ", " ((page.products.map Product.category).eraseDups) ++
          "\n") ++
    (match page.userFlow with
      | some uf =>
        match uf.nextSteps with
        | some steps => "- **Navigation Options**: " ++ joinSep ", " steps ++ "\n"
        | none => ""
      | none => "") ++
    "\n"))

/-- Source: context-generator.js lines 69-92. The "Global Components"
section of `generateFullContext` (emitted when `includeComponents`). -/
def fullComponentsSection (g : Graph) : String :=
  "## Global Components\n\n" ++
  joinStr ((componentsOf g).map (fun component =>
    "### " ++ component.name ++ "\n" ++
    "- **Description**: " ++ component.description ++ "\n" ++
    (match component.appearsOn with
      | some ids => "- **Appears On**: " ++ joinSep ", " ids ++ "\n"
      | none => "") ++
    (if truthyStr component.position then
      "- **Position**: " ++ jsStr component.position ++ "\n"
    else "") ++
    (if component.elements.isEmpty then ""
      else
        "- **Key Elements**:\n" ++
        joinStr (component.elements.map (fun element =>
          "  - " ++ element.description ++ "\n" ++
          (if truthyStr element.selector then
            "    - Selector: `" ++ jsStr element.selector ++ "`\n"
          else "")))) ++
    "\n"))

/-- Source: context-generator.js lines 109-118. One "From X" block of the
navigation-flow section. `this.graph.nodes.find(n => n.id === from)` and
the `toPage` lookup are dereferenced without a null check, so a dangling
edge endpoint throws. -/
def navBlockFor (g : Graph) (fromId : String) : Except JsError String := do
  match findNode g fromId with
  | none => .error .typeError
  | some page =>
    let items ← exceptMap (fun nav =>
        match findNode g nav.to_ with
        | none => (.error .typeError : Except JsError String)
        | some toPage =>
          .ok ("- " ++ nav.description ++ "\n" ++
            "  - Route: " ++ jsStr toPage.route ++ "\n"))
      (g.edges.filter (fun e => e.type_ == "navigation" && e.from_ == fromId))
    .ok ("**From " ++ page.name ++ "**:\n" ++ joinStr items ++ "\n")

/-- Source: context-generator.js lines 94-118. The "Navigation Flow"
section: navigation edges grouped by source in first-occurrence order
(JS object keys preserve insertion order). -/
def navigationSection (g : Graph) : Except JsError String := do
  let navEdges := g.edges.filter (fun e => e.type_ == "navigation")
  let blocks ← exceptMap (navBlockFor g) ((navEdges.map Edge.from_).eraseDups)
  .ok ("## Navigation Flow\n\n" ++ joinStr blocks)

/-- Source: context-generator.js lines 120-132. The "Authentication"
section (emitted when `includeAuth` and the graph has an `authentication`
block). -/
def fullAuthSection (g : Graph) : String :=
  match g.authentication with
  | none => ""
  | some auth =>
    "## Authentication\n\n" ++
    "- **Required**: " ++ (if auth.required then "Yes" else "No") ++ "\n" ++
    "- **Public Pages**: " ++ joinSep ", " auth.publicPages ++ "\n" ++
    "- **Protected Pages**: " ++ joinSep ", " auth.protectedPages ++ "\n" ++
    (match auth.defaultCredentials with
      | some c =>
        "- **Default Credentials**:\n" ++
        "  - Username: " ++ c.username ++ "\n" ++
        "  - Password: " ++ c.password ++ "\n"
      | none => "") ++
    "\n"

/-- Source: context-generator.js lines 134-144. The "Common User Flows"
section (emitted when `includeFlows` and `commonPatterns` exists). -/
def fullFlowsSection (g : Graph) : String :=
  match g.commonPatterns with
  | none => ""
  | some patterns =>
    "## Common User Flows\n\n" ++
    joinStr (patterns.map (fun pattern =>
      "### " ++ pattern.name ++ "\n" ++
      joinStr (pattern.steps.enum.map (fun p =>
        toString (p.1 + 1) ++ ". " ++ p.2 ++ "\n")) ++
      "\n"))

/-- Source: context-generator.js lines 28-147, `generateFullContext`:
metadata header, pages, optional components, navigation flow, optional
authentication, optional common flows. The navigation-flow grouping
dereferences looked-up nodes without null checks, so the function is
fallible on graphs with dangling navigation endpoints. -/
def generateFullContext (g : Graph)
    (includeAuth includeComponents includeFlows : Bool) :
    Except JsError String := do
  let nav ← navigationSection g
  .ok ("# Website Context Map: " ++ g.metadata.name ++ "\n\n" ++
    "Base URL: " ++ g.metadata.baseUrl ++ "\n" ++
    "Version: " ++ g.metadata.version ++ "\n\n" ++
    fullPagesSection g ++
    (if includeComponents then fullComponentsSection g else "") ++
    nav ++
    (if includeAuth then fullAuthSection g else "") ++
    (if includeFlows then fullFlowsSection g else ""))

/-- Source: generate-visual.js lines 27-67, `generateMermaidDiagram`:
node declarations (pages shaped by `requiresAuth`, components tagged
`:::component`), edge lines (`-->` navigation, `-.->` interaction),
class definitions, and per-page class assignments — all in declaration
order. -/
def generateMermaidDiagram (g : Graph) : String :=
  "graph TD\n" ++
  "    %% Style Scout AI Website Graph\n\n" ++
  joinStr (g.nodes.map (fun node =>
    if node.type_ == "page" then
      "    " ++ node.id ++ (if node.requiresAuth then "[/" else "[(") ++
        (node.name ++ "\\n" ++ jsStr node.route) ++
        (if node.requiresAuth then "/]" else ")]") ++ "\n"
    else if node.type_ == "component" then
      "    " ++ node.id ++ "[" ++ node.name ++ "]:::component\n"
    else "")) ++
  joinStr (g.edges.map (fun edge =>
    "    " ++ edge.from_ ++ " " ++
      (if edge.type_ == "navigation" then "-->" else "-.->") ++ " " ++
      edge.to_ ++ "\n")) ++
  "\n    classDef component fill:#e1f5ff,stroke:#01579b,stroke-width:2px\n" ++
  "    classDef publicPage fill:#c8e6c9,stroke:#2e7d32,stroke-width:2px\n" ++
  "    classDef protectedPage fill:#fff3e0,stroke:#e65100,stroke-width:2px\n" ++
  joinStr (g.nodes.map (fun node =>
    if node.type_ == "page" then
      if node.requiresAuth then "    class " ++ node.id ++ " protectedPage\n"
      else "    class " ++ node.id ++ " publicPage\n"
    else ""))

/-- Source: generate-visual.js lines 73-100, `generateDotFormat`: the
Graphviz digraph with per-kind node colors and solid/dashed edges
labelled by the trigger. -/
def generateDotFormat (g : Graph) : String :=
  "digraph StyleScoutAI \x7b\n" ++
  "    rankdir=LR;\n" ++
  "    node [shape=box, style=rounded];\n\n" ++
  joinStr (g.nodes.map (fun node =>
    if node.type_ == "page" then
      "    \"" ++ node.id ++ "\" [label=\"" ++
        (node.name ++ "\\n" ++ jsStr node.route) ++ "\", fillcolor=\"" ++
        (if node.requiresAuth then "orange" else "lightgreen") ++
        "\", style=\"filled,rounded\"];\n"
    else if node.type_ == "component" then
      "    \"" ++ node.id ++ "\" [label=\"" ++ node.name ++
        "\", fillcolor=\"lightblue\", style=\"filled,rounded\"];\n"
    else "")) ++
  "\n" ++
  joinStr (g.edges.map (fun edge =>
    "    \"" ++ edge.from_ ++ "\" -> \"" ++ edge.to_ ++ "\" [style=\"" ++
      (if edge.type_ == "navigation" then "solid" else "dashed") ++
      "\", label=\"" ++ edge.trigger ++ "\"];\n")) ++
  "\x7d\n"

/-- Source: generate-visual.js lines 106-132, `generateTextTree`. When a
root resolves, `buildTreeRecursive(tree, entryPoint.id, graph, new
Set(), 0)` accumulates its lines into a local string parameter and its
result is discarded (JS strings pass by value), so only the header
remains; when no root resolves, the fallback appends a flat listing of
every page to this function's own accumulator, which does work. -/
def generateTextTree (g : Graph) : String :=
  "Style Scout AI Website Structure\n" ++
  repeatStr 60 "=" ++ "\n\n" ++
  (match resolveRoot g with
    | some _ => ""
    | none =>
      joinStr (g.nodes.map (fun node =>
        if node.type_ == "page" then
          node.name ++ " (" ++ jsStr node.route ++ ")\n" ++
          (if node.requiresAuth then "  [Auth Required]\n" else "") ++ "\n"
        else "")))

/-- Source: generate-context.js lines 432-442. The "Connections" block of
one node's HTML record: all outgoing edges (of either kind), each
resolved to the destination node's name — `toNode.name` has no null
check, so a dangling edge target throws. -/
def nodeConnectionsHTML (g : Graph) (node : Node) : Except JsError String := do
  let connections := g.edges.filter (fun e => e.from_ == node.id)
  if connections.isEmpty then
    .ok ""
  else
    let items ← exceptMap (fun conn =>
        match findNode g conn.to_ with
        | none => (.error .typeError : Except JsError String)
        | some toNode =>
          .ok ("<div class=\"connection-item\">→ " ++ toNode.name ++ " (" ++
            conn.trigger ++ ")</div>"))
      connections
    .ok ("<div class=\"connection\">" ++
      "<div class=\"node-detail-item\"><strong>Connections:</strong></div>" ++
      joinStr items ++ "</div>")

/-- Source: generate-context.js lines 402-407. Everything one node's
HTML record emits before the node's name: the record opener with its
class string and the node-title span opener. -/
def nodeHTMLbefore (node : Node) : String :=
  "<div class=\"" ++
    ("node " ++ node.type_ ++
      (if node.requiresAuth then " protected" else "")) ++ "\">" ++
  "<div class=\"node-header\">" ++
  "<span class=\"node-title\">"

/-- Source: generate-context.js lines 407-419. Everything one node's
HTML record emits between the node's name and its description: badges,
optional auth badge, optional route line, and the details opener. -/
def nodeHTMLbetween (node : Node) : String :=
  "</span>" ++
  "<span class=\"node-badge badge-" ++ node.type_ ++ "\">" ++
    toUpperCase node.type_ ++ "</span>" ++
  (if node.requiresAuth then
    "<span class=\"node-badge badge-auth\">AUTH REQUIRED</span>"
  else "") ++
  "</div>" ++
  (if truthyStr node.route then
    "<div class=\"node-detail-item\"><strong>Route:</strong> " ++
      jsStr node.route ++ "</div>"
  else "") ++
  "<div class=\"node-details\">" ++
  "<div class=\"node-detail-item\"><strong>Description:</strong> "

/-- Source: generate-context.js lines 419-444. Everything one node's
HTML record emits after its description: the element list, the product
count, the connections block and the record closers. -/
def nodeHTMLafter (node : Node) (connStr : String) : String :=
  "</div>" ++
  (if node.elements.isEmpty then ""
    else
      "<div class=\"node-detail-item\"><strong>Elements:</strong> " ++
        toString node.elements.length ++ "</div>" ++
      joinStr (node.elements.map (fun el =>
        "<div class=\"connection-item\">• " ++ el.description ++ " (" ++
          el.type_ ++ ")</div>"))) ++
  (if node.products.isEmpty then ""
    else
      "<div class=\"node-detail-item\"><strong>Products:</strong> " ++
        toString node.products.length ++ "</div>") ++
  connStr ++
  "</div></div>"

/-- Source: generate-context.js lines 400-447, the per-node record of
`generateNodeHTML`: opener, name, badges/route/description, details,
connections, closers — the name and description interpolated verbatim
with no escaping. -/
def nodeHTML (node : Node) (g : Graph) : Except JsError String :=
  (nodeConnectionsHTML g node).map (fun connStr =>
    nodeHTMLbefore node ++ node.name ++ nodeHTMLbetween node ++
      node.description ++ nodeHTMLafter node connStr)

/-- Source: generate-context.js lines 400-447:
`nodes.map(node => ...).join('')`. -/
def generateNodeHTML (nodes : List Node) (g : Graph) :
    Except JsError String := do
  let parts ← exceptMap (fun node => nodeHTML node g) nodes
  .ok (joinStr parts)
/-- Static chunk 0 of the HTML tree-map template
(generate-context.js lines 158-395). -/
def htmlChunk0 : String :=
  "<!DOCTYPE html>\n<html lang=\"en\">\n<head>\n    <meta charset=\"UTF-8\">\n    <meta name=\"viewport\" content=\"width=device-width, initial-scale=1.0\">\n    <title>"

/-- Static chunk 1 of the HTML tree-map template
(generate-context.js lines 158-395). -/
def htmlChunk1 : String :=
  " - Context Tree Map</title>\n    <style>\n        * \x7b\n            margin: 0;\n            padding: 0;\n            box-sizing: border-box;\n        \x7d\n        \n        body \x7b\n            font-family: -apple-system, BlinkMacSystemFont, 'Segoe UI', Roboto, Oxygen, Ubuntu, Cantarell, sans-serif;\n            background: linear-gradient(135deg, #667eea 0%, #764ba2 100%);\n            padding: 20px;\n            min-height: 100vh;\n        \x7d\n        \n        .container \x7b\n            max-width: 1400px;\n            margin: 0 auto;\n            background: white;\n            border-radius: 12px;\n            box-shadow: 0 20px 60px rgba(0,0,0,0.3);\n            padding: 30px;\n        \x7d\n        \n        h1 \x7b\n            color: #333;\n            margin-bottom: 10px;\n            font-size: 2.5em;\n        \x7d\n        \n        .metadata \x7b\n" ++
  "            color: #666;\n            margin-bottom: 30px;\n            padding-bottom: 20px;\n            border-bottom: 2px solid #eee;\n        \x7d\n        \n        .tree-container \x7b\n            display: flex;\n            flex-direction: column;\n            gap: 20px;\n        \x7d\n        \n        .tree-section \x7b\n            margin-bottom: 30px;\n        \x7d\n        \n        .tree-section h2 \x7b\n            color: #667eea;\n            margin-bottom: 15px;\n            font-size: 1.5em;\n        \x7d\n        \n        .tree \x7b\n            display: flex;\n            flex-direction: column;\n            gap: 15px;\n        \x7d\n        \n        .node \x7b\n            background: #f8f9fa;\n            border-left: 4px solid #667eea;\n            padding: 15px 20px;\n            border-radius: 8px;\n            transition: all 0.3s ease;\n" ++
  "            cursor: pointer;\n        \x7d\n        \n        .node:hover \x7b\n            background: #e9ecef;\n            transform: translateX(5px);\n            box-shadow: 0 4px 12px rgba(0,0,0,0.1);\n        \x7d\n        \n        .node.page \x7b\n            border-left-color: #28a745;\n        \x7d\n        \n        .node.component \x7b\n            border-left-color: #ffc107;\n        \x7d\n        \n        .node.protected \x7b\n            border-left-color: #dc3545;\n        \x7d\n        \n        .node-header \x7b\n            display: flex;\n            align-items: center;\n            gap: 10px;\n            margin-bottom: 8px;\n        \x7d\n        \n        .node-title \x7b\n            font-weight: 600;\n            color: #333;\n            font-size: 1.1em;\n        \x7d\n        \n        .node-badge \x7b\n            padding: 4px 8px;\n" ++
  "            border-radius: 4px;\n            font-size: 0.75em;\n            font-weight: 600;\n        \x7d\n        \n        .badge-page \x7b\n            background: #d4edda;\n            color: #155724;\n        \x7d\n        \n        .badge-component \x7b\n            background: #fff3cd;\n            color: #856404;\n        \x7d\n        \n        .badge-auth \x7b\n            background: #f8d7da;\n            color: #721c24;\n        \x7d\n        \n        .node-details \x7b\n            margin-top: 10px;\n            padding-top: 10px;\n            border-top: 1px solid #dee2e6;\n            display: none;\n        \x7d\n        \n        .node.expanded .node-details \x7b\n            display: block;\n        \x7d\n        \n        .node-detail-item \x7b\n            margin: 5px 0;\n            color: #666;\n            font-size: 0.9em;\n        \x7d\n        \n" ++
  "        .node-detail-item strong \x7b\n            color: #333;\n        \x7d\n        \n        .connection \x7b\n            margin-left: 20px;\n            padding-left: 20px;\n            border-left: 2px dashed #ccc;\n            margin-top: 10px;\n        \x7d\n        \n        .connection-item \x7b\n            color: #666;\n            font-size: 0.9em;\n            margin: 5px 0;\n        \x7d\n        \n        .stats \x7b\n            display: grid;\n            grid-template-columns: repeat(auto-fit, minmax(200px, 1fr));\n            gap: 15px;\n            margin-bottom: 30px;\n        \x7d\n        \n        .stat-card \x7b\n            background: linear-gradient(135deg, #667eea 0%, #764ba2 100%);\n            color: white;\n            padding: 20px;\n            border-radius: 8px;\n            text-align: center;\n        \x7d\n        \n        .stat-value \x7b\n" ++
  "            font-size: 2em;\n            font-weight: bold;\n            margin-bottom: 5px;\n        \x7d\n        \n        .stat-label \x7b\n            font-size: 0.9em;\n            opacity: 0.9;\n        \x7d\n    </style>\n</head>\n<body>\n    <div class=\"container\">\n        <h1>"

/-- Static chunk 2 of the HTML tree-map template
(generate-context.js lines 158-395). -/
def htmlChunk2 : String :=
  "</h1>\n        <div class=\"metadata\">\n            <strong>Base URL:</strong> "

/-- Static chunk 3 of the HTML tree-map template
(generate-context.js lines 158-395). -/
def htmlChunk3 : String :=
  "<br>\n            <strong>Version:</strong> "

/-- Static chunk 4 of the HTML tree-map template
(generate-context.js lines 158-395). -/
def htmlChunk4 : String :=
  "\n        </div>\n        \n        <div class=\"stats\">\n            <div class=\"stat-card\">\n                <div class=\"stat-value\">"

/-- Static chunk 5 of the HTML tree-map template
(generate-context.js lines 158-395). -/
def htmlChunk5 : String :=
  "</div>\n                <div class=\"stat-label\">Pages</div>\n            </div>\n            <div class=\"stat-card\">\n                <div class=\"stat-value\">"

/-- Static chunk 6 of the HTML tree-map template
(generate-context.js lines 158-395). -/
def htmlChunk6 : String :=
  "</div>\n                <div class=\"stat-label\">Components</div>\n            </div>\n            <div class=\"stat-card\">\n                <div class=\"stat-value\">"

/-- Static chunk 7 of the HTML tree-map template
(generate-context.js lines 158-395). -/
def htmlChunk7 : String :=
  "</div>\n                <div class=\"stat-label\">Connections</div>\n            </div>\n            <div class=\"stat-card\">\n                <div class=\"stat-value\">"

/-- Static chunk 8 of the HTML tree-map template
(generate-context.js lines 158-395). -/
def htmlChunk8 : String :=
  "</div>\n                <div class=\"stat-label\">Protected Pages</div>\n            </div>\n        </div>\n        \n        <div class=\"tree-section\">\n            <h2>📄 Pages</h2>\n            <div class=\"tree\">\n                "

/-- Static chunk 9 of the HTML tree-map template
(generate-context.js lines 158-395). -/
def htmlChunk9 : String :=
  "\n            </div>\n        </div>\n        \n        <div class=\"tree-section\">\n            <h2>🧩 Components</h2>\n            <div class=\"tree\">\n                "

/-- Static chunk 10 of the HTML tree-map template
(generate-context.js lines 158-395). -/
def htmlChunk10 : String :=
  "\n            </div>\n        </div>\n    </div>\n    \n    <script>\n        document.querySelectorAll('.node').forEach(node => \x7b\n            node.addEventListener('click', function() \x7b\n                this.classList.toggle('expanded');\n            \x7d);\n        \x7d);\n    </script>\n</body>\n</html>"

/-- Source: generate-context.js lines 155-398, `generateHTMLTreeMap`: the
self-contained HTML document — static template chunks interleaved with
the graph name (twice), base URL, version, the four summary counters
(page count, component count, edge count, protected-page count, each
computed by direct aggregation over the graph), and the two
`generateNodeHTML` listings for pages and components. -/
def htmlDocOf (g : Graph) (pagesHtml componentsHtml : String) : String :=
  htmlChunk0 ++ g.metadata.name ++
  htmlChunk1 ++ g.metadata.name ++
  htmlChunk2 ++ g.metadata.baseUrl ++
  htmlChunk3 ++ g.metadata.version ++
  htmlChunk4 ++ toString (g.nodes.filter (fun n => n.type_ == "page")).length ++
  htmlChunk5 ++ toString (g.nodes.filter (fun n => n.type_ == "component")).length ++
  htmlChunk6 ++ toString g.edges.length ++
  htmlChunk7 ++ toString (g.nodes.filter (fun n => n.requiresAuth)).length ++
  htmlChunk8 ++ pagesHtml ++
  htmlChunk9 ++ componentsHtml ++
  htmlChunk10

/-- Source: generate-context.js lines 155-398 — the whole document as one
template application (see `htmlDocOf` for the chunk/interpolation
interleaving). -/
def generateHTMLTreeMap (g : Graph) : Except JsError String := do
  let pagesHtml ← generateNodeHTML
    (g.nodes.filter (fun n => n.type_ == "page")) g
  let componentsHtml ← generateNodeHTML
    (g.nodes.filter (fun n => n.type_ == "component")) g
  .ok (htmlDocOf g pagesHtml componentsHtml)

/-- Claim C9: every renderer of the engine is a pure function of the
graph (plus its explicit options/task inputs) — no clock, randomness or
ambient mutable state occurs in any of them — so two calls on equal
inputs produce byte-identical output (for the fallible renderers,
identical `Except` results, errors included). -/
theorem renderers_deterministic (g g2 : Graph)
    (includeAuth includeComponents includeFlows : Bool) (task : String)
    (h : g = g2) :
    generateFullContext g includeAuth includeComponents includeFlows =
      generateFullContext g2 includeAuth includeComponents includeFlows ∧
    generateTaskContext g task = generateTaskContext g2 task ∧
    generateQuickReference g = generateQuickReference g2 ∧
    generateTreeStructure g = generateTreeStructure g2 ∧
    generateMermaidDiagram g = generateMermaidDiagram g2 ∧
    generateDotFormat g = generateDotFormat g2 ∧
    generateTextTree g = generateTextTree g2 ∧
    generateHTMLTreeMap g = generateHTMLTreeMap g2 := by
  subst h
  exact ⟨rfl, rfl, rfl, rfl, rfl, rfl, rfl, rfl⟩

/-- Claim C9 witness: the determinism theorem instantiated on the
concrete scenario-A graph. -/
theorem renderers_deterministic_witness :
    generateMermaidDiagram scenarioAGraph =
      generateMermaidDiagram scenarioAGraph ∧
    generateHTMLTreeMap scenarioAGraph = generateHTMLTreeMap scenarioAGraph :=
  ⟨(renderers_deterministic scenarioAGraph scenarioAGraph true true true
      "login" rfl).2.2.2.2.1,
   (renderers_deterministic scenarioAGraph scenarioAGraph true true true
      "login" rfl).2.2.2.2.2.2.2⟩

/-- The character list `mid` occurs contiguously inside `whole`. -/
def dataInfix (mid whole : List Char) : Prop :=
  ∃ p q : List Char, whole = p ++ mid ++ q

/-- A string's characters occur inside itself. -/
theorem dataInfix_self (s : String) : dataInfix s.data s.data :=
  ⟨[], [], by simp⟩

/-- Occurrence is preserved by appending a string on the left. -/
theorem dataInfix_append_left (a : String) {mid : List Char} {w : String}
    (h : dataInfix mid w.data) : dataInfix mid (a ++ w).data := by
  obtain ⟨p, q, hw⟩ := h
  exact ⟨a.data ++ p, q, by rw [strDataAppend, hw]; simp⟩

/-- Occurrence is preserved by appending a string on the right. -/
theorem dataInfix_append_right (b : String) {mid : List Char} {w : String}
    (h : dataInfix mid w.data) : dataInfix mid (w ++ b).data := by
  obtain ⟨p, q, hw⟩ := h
  exact ⟨p, q ++ b.data, by rw [strDataAppend, hw]; simp⟩

/-- A member of a joined list of strings occurs in the join. -/
theorem dataInfix_joinStr (bs : List String) (b : String) (hb : b ∈ bs) :
    dataInfix b.data (joinStr bs).data := by
  induction bs with
  | nil => cases hb
  | cons h t ih =>
    rcases List.mem_cons.mp hb with rfl | hbt
    · show dataInfix b.data (b ++ joinStr t).data
      exact dataInfix_append_right _ (dataInfix_self b)
    · show dataInfix b.data (h ++ joinStr t).data
      exact dataInfix_append_left _ (ih hbt)

/-- A fallible map over a list all of whose elements succeed succeeds. -/
theorem exceptMap_ok {α β : Type} (f : α → Except JsError β) (l : List α)
    (h : ∀ a ∈ l, ∃ b, f a = .ok b) : ∃ bs, exceptMap f l = .ok bs := by
  induction l with
  | nil => exact ⟨[], rfl⟩
  | cons hd t ih =>
    obtain ⟨b, hb⟩ := h hd (List.mem_cons_self hd t)
    obtain ⟨bs, hbs⟩ := ih (fun a ha => h a (List.mem_cons_of_mem hd ha))
    refine ⟨b :: bs, ?_⟩
    rw [exceptMap, hb, hbs]
    rfl

/-- Every input of a successful fallible map contributes its output to
the result list. -/
theorem exceptMap_mem {α β : Type} (f : α → Except JsError β) (l : List α)
    (bs : List β) (hmap : exceptMap f l = .ok bs) :
    ∀ a ∈ l, ∃ b ∈ bs, f a = .ok b := by
  induction l generalizing bs with
  | nil => intro a ha; cases ha
  | cons hd t ih =>
    intro a ha
    match hfh : f hd with
    | .error e => rw [exceptMap, hfh] at hmap; cases hmap
    | .ok b =>
      match hrest : exceptMap f t with
      | .error e => rw [exceptMap, hfh, hrest] at hmap; cases hmap
      | .ok rest =>
        rw [exceptMap, hfh, hrest] at hmap
        replace hmap : (Except.ok (b :: rest) : Except JsError (List β)) =
          Except.ok bs := hmap
        have hbs : bs = b :: rest := by
          cases hmap
          rfl
        subst hbs
        rcases List.mem_cons.mp ha with rfl | hat
        · exact ⟨b, List.mem_cons_self b rest, hfh⟩
        · obtain ⟨b2, hb2in, hb2⟩ := ih rest hrest a hat
          exact ⟨b2, List.mem_cons_of_mem b hb2in, hb2⟩

/-- All edge targets of the graph resolve to an existing node. -/
def edgesResolve (g : Graph) : Bool :=
  g.edges.all (fun e => (findNode g e.to_).isSome)

/-- Under resolving edges, the connections block of every node renders
successfully. -/
theorem nodeConnectionsHTML_ok (g : Graph) (hres : edgesResolve g = true)
    (node : Node) : ∃ c, nodeConnectionsHTML g node = .ok c := by
  unfold nodeConnectionsHTML
  by_cases hempty : (g.edges.filter (fun e => e.from_ == node.id)).isEmpty
  · exact ⟨"", by simp [hempty]⟩
  · have hall : ∀ conn ∈ g.edges.filter (fun e => e.from_ == node.id),
        ∃ s, (match findNode g conn.to_ with
          | none => (.error .typeError : Except JsError String)
          | some toNode =>
            .ok ("<div class=\"connection-item\">→ " ++ toNode.name ++ " (" ++
              conn.trigger ++ ")</div>")) = .ok s := by
      intro conn hconn
      have hmem : conn ∈ g.edges := List.mem_of_mem_filter hconn
      have hsome : (findNode g conn.to_).isSome := by
        have := List.all_eq_true.mp hres conn hmem
        simpa using this
      obtain ⟨toNode, htn⟩ := Option.isSome_iff_exists.mp hsome
      exact ⟨_, by rw [htn]⟩
    obtain ⟨items, hitems⟩ := exceptMap_ok _ _ hall
    have hemptyF : (g.edges.filter (fun e => e.from_ == node.id)).isEmpty =
        false := eq_false_of_ne_true hempty
    refine ⟨"<div class=\"connection\">" ++
      "<div class=\"node-detail-item\"><strong>Connections:</strong></div>" ++
      joinStr items ++ "</div>", ?_⟩
    simp only [hemptyF, Bool.false_eq_true, if_false, hitems]
    rfl

/-- Under resolving edges, every node's HTML record renders successfully
and has the shape `before ++ name ++ between ++ description ++ after`. -/
theorem nodeHTML_ok (g : Graph) (hres : edgesResolve g = true)
    (node : Node) :
    ∃ c, nodeHTML node g =
      .ok (nodeHTMLbefore node ++ node.name ++ nodeHTMLbetween node ++
        node.description ++ nodeHTMLafter node c) := by
  obtain ⟨c, hc⟩ := nodeConnectionsHTML_ok g hres node
  exact ⟨c, by rw [nodeHTML, hc]; rfl⟩

/-- The rendered record of a node contains the node's name and its
description character-for-character. -/
theorem nodeHTML_payload_contains (node : Node) (c : String) :
    dataInfix node.name.data
      (nodeHTMLbefore node ++ node.name ++ nodeHTMLbetween node ++
        node.description ++ nodeHTMLafter node c).data ∧
    dataInfix node.description.data
      (nodeHTMLbefore node ++ node.name ++ nodeHTMLbetween node ++
        node.description ++ nodeHTMLafter node c).data := by
  constructor
  · exact dataInfix_append_right _ (dataInfix_append_right _
      (dataInfix_append_right _ (dataInfix_append_left _
        (dataInfix_self node.name))))
  · exact dataInfix_append_right _ (dataInfix_append_left _
      (dataInfix_self node.description))

/-- Occurrence of character lists is transitive. -/
theorem dataInfix_trans {a b c : List Char} (h1 : dataInfix a b)
    (h2 : dataInfix b c) : dataInfix a c := by
  obtain ⟨p1, q1, hb⟩ := h1
  obtain ⟨p2, q2, hc⟩ := h2
  exact ⟨p2 ++ p1, q1 ++ q2, by simp [hc, hb, List.append_assoc]⟩

/-- Text occurring in the rendered pages listing occurs in the whole
document. -/
theorem dataInfix_htmlDoc_pages (g : Graph) (ps cs : String)
    {mid : List Char} (h : dataInfix mid ps.data) :
    dataInfix mid (htmlDocOf g ps cs).data := by
  unfold htmlDocOf
  exact dataInfix_append_right _ (dataInfix_append_right _
    (dataInfix_append_right _ (dataInfix_append_left _ h)))

/-- Text occurring in the rendered components listing occurs in the
whole document. -/
theorem dataInfix_htmlDoc_components (g : Graph) (ps cs : String)
    {mid : List Char} (h : dataInfix mid cs.data) :
    dataInfix mid (htmlDocOf g ps cs).data := by
  unfold htmlDocOf
  exact dataInfix_append_right _ (dataInfix_append_left _ h)

/-- Under resolving edges, rendering a node list succeeds and the output
contains every listed node's name and description verbatim. -/
theorem generateNodeHTML_ok_contains (g : Graph) (hres : edgesResolve g = true)
    (l : List Node) :
    ∃ s, generateNodeHTML l g = .ok s ∧
      ∀ node ∈ l, dataInfix node.name.data s.data ∧
        dataInfix node.description.data s.data := by
  have hnodeok : ∀ node : Node, ∃ s, nodeHTML node g = .ok s ∧
      dataInfix node.name.data s.data ∧
      dataInfix node.description.data s.data := by
    intro node
    obtain ⟨c, hc⟩ := nodeHTML_ok g hres node
    exact ⟨_, hc, (nodeHTML_payload_contains node c).1,
      (nodeHTML_payload_contains node c).2⟩
  have hall : ∀ node ∈ l, ∃ b, nodeHTML node g = .ok b := by
    intro node _
    obtain ⟨s, hs, _, _⟩ := hnodeok node
    exact ⟨s, hs⟩
  obtain ⟨parts, hparts⟩ := exceptMap_ok _ l hall
  refine ⟨joinStr parts, ?_, ?_⟩
  · rw [generateNodeHTML, hparts]
    rfl
  · intro node hnode
    obtain ⟨b, hbin, hb⟩ := exceptMap_mem _ l parts hparts node hnode
    obtain ⟨s, hs, hinf1, hinf2⟩ := hnodeok node
    have hbs : b = s := by
      rw [hb] at hs
      cases hs
      rfl
    subst hbs
    exact ⟨dataInfix_trans hinf1 (dataInfix_joinStr parts b hbin),
      dataInfix_trans hinf2 (dataInfix_joinStr parts b hbin)⟩

/-- Claim C10: when every edge target resolves (the situation the spec
calls a validated graph), the interactive tree map renders successfully,
and the document embeds every page's and component's `name` and
`description` strings character-for-character — no HTML escaping or
sanitization is applied anywhere on the way into the document. -/
theorem treeMap_embeds_text_verbatim (g : Graph)
    (hres : edgesResolve g = true) (n : Node) (hn : n ∈ g.nodes)
    (htype : n.type_ = "page" ∨ n.type_ = "component") :
    ∃ doc : String, generateHTMLTreeMap g = .ok doc ∧
      dataInfix n.name.data doc.data ∧
      dataInfix n.description.data doc.data := by
  obtain ⟨ps, hps, hpsall⟩ := generateNodeHTML_ok_contains g hres
    (g.nodes.filter (fun x => x.type_ == "page"))
  obtain ⟨cs, hcs, hcsall⟩ := generateNodeHTML_ok_contains g hres
    (g.nodes.filter (fun x => x.type_ == "component"))
  refine ⟨htmlDocOf g ps cs, ?_, ?_, ?_⟩
  · rw [generateHTMLTreeMap, hps, hcs]
    rfl
  · rcases htype with hp | hc
    · have hmem : n ∈ g.nodes.filter (fun x => x.type_ == "page") :=
        List.mem_filter.mpr ⟨hn, by simp [hp]⟩
      exact dataInfix_htmlDoc_pages g ps cs (hpsall n hmem).1
    · have hmem : n ∈ g.nodes.filter (fun x => x.type_ == "component") :=
        List.mem_filter.mpr ⟨hn, by simp [hc]⟩
      exact dataInfix_htmlDoc_components g ps cs (hcsall n hmem).1
  · rcases htype with hp | hc
    · have hmem : n ∈ g.nodes.filter (fun x => x.type_ == "page") :=
        List.mem_filter.mpr ⟨hn, by simp [hp]⟩
      exact dataInfix_htmlDoc_pages g ps cs (hpsall n hmem).2
    · have hmem : n ∈ g.nodes.filter (fun x => x.type_ == "component") :=
        List.mem_filter.mpr ⟨hn, by simp [hc]⟩
      exact dataInfix_htmlDoc_components g ps cs (hcsall n hmem).2

/-- Fixture for claim C10: a page whose name and description carry
markup-significant characters. -/
def xssPage : Node :=
  { blankNode with
    id := "xss", name := "<script>alert('xss')</script>"
    description := "<b>bold & <i>nested</i></b>", route := some "/xss" }

/-- Fixture graph for claim C10. -/
def xssGraph : Graph :=
  { metadata := m0, nodes := [xssPage], edges := [], authentication := none,
    commonPatterns := none }

/-- Claim C10 witness: the theorem instantiated on a concrete graph whose
page name is a script tag and whose description carries markup — both
appear verbatim in the successfully rendered document. -/
theorem treeMap_embeds_text_verbatim_witness :
    ∃ doc : String, generateHTMLTreeMap xssGraph = .ok doc ∧
      dataInfix "<script>alert('xss')</script>".data doc.data ∧
      dataInfix "<b>bold & <i>nested</i></b>".data doc.data :=
  treeMap_embeds_text_verbatim xssGraph (by decide)
    xssPage (by decide) (Or.inl rfl)
